import Mathlib

/-!
Verification of the `earningstranscripts` command scheduler against its
natural-language specification.

The Lean definitions below are a shallow embedding of the Python sources
`src/scheduler/jobs.py`, `src/scheduler/service.py` and
`src/scheduler/config.py`.  File/process side effects (the history JSON
file, the PID file, subprocess execution, wall-clock timestamps) are made
explicit: functions take the relevant state as an argument and return the
new state, and environment inputs (timestamps, the behaviour of the spawned
subprocess, liveness of a PID) are parameters.
-/

set_option autoImplicit false

namespace Sched

/-- JSON-like values stored in history run records (`scheduler_history.json`).
Strings, integers and `null` cover every field the scheduler writes; the two
float-valued fields (`elapsed_seconds`, `duration_seconds`) enter the
embedding as opaque environment parameters of this type. -/
inductive JVal where
  | str (s : String)
  | int (n : Int)
  | null
deriving DecidableEq, Repr

/-- A run record is a Python dict: an insertion-ordered association list. -/
abbrev RunRec := List (String × JVal)

/-- Python `d.get(k)`: value of the first (unique) occurrence of key `k`. -/
def dictGet : RunRec → String → Option JVal
  | [], _ => none
  | (k', v') :: rest, k => if k' = k then some v' else dictGet rest k

/-- Python `d[k] = v`: replace the value at key `k` in place if the key is
present, otherwise append the binding at the end. -/
def dictSet : RunRec → String → JVal → RunRec
  | [], k, v => [(k, v)]
  | (k', v') :: rest, k, v =>
      if k' = k then (k, v) :: rest else (k', v') :: dictSet rest k v

/-- Python `d.update(u)`: set each binding of `u` in order. -/
def dictUpdate : RunRec → List (String × JVal) → RunRec
  | r, [] => r
  | r, (k, v) :: rest => dictUpdate (dictSet r k v) rest

/-- The test `record.get('run_id') == run_id` used by `HistoryStore`. -/
def matchesRun (runId : String) (r : RunRec) : Bool :=
  decide (dictGet r "run_id" = some (JVal.str runId))

/-- Python `l[-m:]` for a natural `m` (the trim in `HistoryStore.add_run`).
For `m = 0`, Python's `l[-0:]` is `l[0:]`, i.e. the whole list. -/
def pyTail {α : Type} (m : Nat) (l : List α) : List α :=
  if m = 0 then l else l.drop (l.length - m)

/-- `HistoryStore.add_run` (src/scheduler/jobs.py lines 84-98): append the
record, then trim to the `max_entries` most recent when over the cap. -/
def addRun (maxEntries : Nat) (history : List RunRec) (record : RunRec) :
    List RunRec :=
  let h := history ++ [record]
  if maxEntries < h.length then pyTail maxEntries h else h

/-- `HistoryStore.update_run` (src/scheduler/jobs.py lines 100-113): update
the first record whose `run_id` field equals `runId`, then stop (`break`). -/
def updateRun : List RunRec → String → List (String × JVal) → List RunRec
  | [], _, _ => []
  | r :: rest, runId, updates =>
      if matchesRun runId r then dictUpdate r updates :: rest
      else r :: updateRun rest runId updates

/-! Basic dictionary lemmas. -/

theorem dictGet_dictSet (r : RunRec) (k q : String) (v : JVal) :
    dictGet (dictSet r k v) q = if k = q then some v else dictGet r q := by
  induction r with
  | nil => simp [dictSet, dictGet]
  | cons hd rest ih =>
      obtain ⟨k', v'⟩ := hd
      by_cases hk : k' = k
      · subst hk
        by_cases hq : k' = q <;> simp [dictSet, dictGet, hq]
      · by_cases hq : k' = q
        · subst hq
          have : k ≠ k' := fun h => hk h.symm
          simp [dictSet, dictGet, hk, this]
        · simp [dictSet, dictGet, hk, hq, ih]

/-! History-store frame lemmas. -/

theorem updateRun_no_match (runId : String) (updates : List (String × JVal)) :
    ∀ h : List RunRec, (∀ x ∈ h, matchesRun runId x = false) →
      updateRun h runId updates = h := by
  intro h
  induction h with
  | nil => intro _; rfl
  | cons a rest ih =>
      intro hall
      have ha := hall a (by simp)
      simp [updateRun, ha, ih (fun x hx => hall x (by simp [hx]))]

theorem updateRun_first_match (runId : String) (updates : List (String × JVal))
    (r : RunRec) (post : List RunRec) :
    ∀ pre : List RunRec, (∀ x ∈ pre, matchesRun runId x = false) →
      matchesRun runId r = true →
      updateRun (pre ++ r :: post) runId updates
        = pre ++ dictUpdate r updates :: post := by
  intro pre
  induction pre with
  | nil => intro _ hr; simp [updateRun, hr]
  | cons a rest ih =>
      intro hall hr
      have ha := hall a (by simp)
      simp [updateRun, ha, ih (fun x hx => hall x (by simp [hx])) hr]

/-- C10: `update_run(run_id, updates)` modifies at most the first record
whose `run_id` matches, leaving every other record unchanged; if no record
has that `run_id`, the stored history is unchanged. -/
theorem updateRun_frame (runId : String) (updates : List (String × JVal))
    (h pre post : List RunRec) (r : RunRec) :
    ((∀ x ∈ h, matchesRun runId x = false) → updateRun h runId updates = h) ∧
    (h = pre ++ r :: post → (∀ x ∈ pre, matchesRun runId x = false) →
      matchesRun runId r = true →
      updateRun h runId updates = pre ++ dictUpdate r updates :: post) := by
  refine ⟨fun hall => updateRun_no_match runId updates h hall,
    fun heq hpre hr => ?_⟩
  subst heq
  exact updateRun_first_match runId updates r post pre hpre hr

/-- Witness for `updateRun_frame` at a concrete history with no matching
record: the store is unchanged. -/
theorem updateRun_frame_witness :
    updateRun [[("run_id", JVal.str "a"), ("status", JVal.str "running")]]
        "b" [("status", JVal.str "failed")]
      = [[("run_id", JVal.str "a"), ("status", JVal.str "running")]] :=
  (updateRun_frame "b" [("status", JVal.str "failed")]
      [[("run_id", JVal.str "a"), ("status", JVal.str "running")]] [] [] []).1
    (by decide)

/-- C6 counterexample: a `HistoryStore` with `max_entries = 0` does not keep
the history at or under the cap, because Python's `history[-0:]` is the whole
list: after `add_run` on a one-record history the file holds 2 > 0 records. -/
theorem addRun_zero_cap_counterexample :
    addRun 0 [[("run_id", JVal.str "a")]] [("run_id", JVal.str "b")]
        = [[("run_id", JVal.str "a")], [("run_id", JVal.str "b")]] ∧
    ¬((addRun 0 [[("run_id", JVal.str "a")]] [("run_id", JVal.str "b")]).length
        ≤ 0) := by
  decide

/-- C6 (amended): for `max_entries ≥ 1`, after `add_run` the stored history
is exactly the suffix of most recently appended records and holds at most
`max_entries` of them. -/
theorem addRun_bounded (maxEntries : Nat) (h : List RunRec) (r : RunRec)
    (hmax : 1 ≤ maxEntries) :
    addRun maxEntries h r = (h ++ [r]).drop (h.length + 1 - maxEntries) ∧
    (addRun maxEntries h r).length ≤ maxEntries := by
  have hlen : (h ++ [r]).length = h.length + 1 := by simp
  have heq : addRun maxEntries h r
      = (h ++ [r]).drop (h.length + 1 - maxEntries) := by
    simp only [addRun, pyTail]
    have hne : ¬(maxEntries = 0) := by omega
    by_cases hc : maxEntries < (h ++ [r]).length
    · rw [if_pos hc, if_neg hne, hlen]
    · have h0 : h.length + 1 - maxEntries = 0 := by
        rw [hlen] at hc; omega
      rw [if_neg hc, h0, List.drop_zero]
  refine ⟨heq, ?_⟩
  rw [heq, List.length_drop, hlen]
  omega

/-- Witness for `addRun_bounded` with a cap of 2 on a history of length 2. -/
theorem addRun_bounded_witness :
    addRun 2 [[("run_id", JVal.str "a")], [("run_id", JVal.str "b")]]
        [("run_id", JVal.str "c")]
      = (([[("run_id", JVal.str "a")], [("run_id", JVal.str "b")]]
          ++ [[("run_id", JVal.str "c")]]).drop
          ([[("run_id", JVal.str "a")], [("run_id", JVal.str "b")]].length
            + 1 - 2)) ∧
    (addRun 2 [[("run_id", JVal.str "a")], [("run_id", JVal.str "b")]]
        [("run_id", JVal.str "c")]).length ≤ 2 :=
  addRun_bounded 2 [[("run_id", JVal.str "a")], [("run_id", JVal.str "b")]]
    [("run_id", JVal.str "c")] (by decide)

/-! Command executor (`CommandExecutor.execute_command`,
src/scheduler/jobs.py lines 209-352). -/

/-- Behaviour of the spawned subprocess, an environment input.  Lines are
given without their trailing newline (the logged mode strips it before
collecting; the stream mode's raw lines are recovered by re-appending it). -/
inductive ProcOutcome where
  | exits (code : Int) (outLines errLines : List String)
  | timesOut
  | spawnFails (msg : String)

/-- The dict `{stdout, stderr, returncode}` returned by `execute_command`. -/
structure ExecResult where
  stdout : String
  stderr : String
  returncode : Int
deriving DecidableEq, Repr

/-- Stream mode's `''.join(stdout_lines)` where each raw line keeps its
newline; stderr is interleaved into stdout (`stderr=subprocess.STDOUT`),
represented here as stdout lines followed by stderr lines. -/
def streamJoin (lines : List String) : String :=
  String.join (lines.map (fun l => l ++ "\n"))

/-- The stderr text `execute_command` captures in each output mode: in
stream mode stderr is merged into stdout and the captured stderr is empty
(the result dict's `stderr` is `''`); in logged mode it is
`'\n'.join(stderr_lines)`. -/
def capturedStderr (streamOutput : Bool) (errLines : List String) : String :=
  if streamOutput then "" else String.intercalate "\n" errLines

/-- `CommandExecutor.execute_command`.  The first component is the returned
dict or the raised `JobExecutionError` message; the second records whether
`process.kill()` was invoked.  In stream mode a `TimeoutExpired` from
`process.wait` propagates straight to the outer handler (no kill); in
logged mode the handler around `process.wait` kills the process first. -/
def executeCommand (streamOutput : Bool) (timeout : Nat)
    (outcome : ProcOutcome) : Except String ExecResult × Bool :=
  if streamOutput then
    match outcome with
    | .exits code outLines errLines =>
        if code ≠ 0 then
          (Except.error ("Command failed with exit code " ++ toString code),
            false)
        else
          (Except.ok ⟨streamJoin (outLines ++ errLines), "", code⟩, false)
    | .timesOut =>
        (Except.error ("Command timed out after " ++ toString timeout ++ "s"),
          false)
    | .spawnFails msg =>
        (Except.error ("Command execution failed: " ++ msg), false)
  else
    match outcome with
    | .exits code outLines errLines =>
        if code ≠ 0 then
          (Except.error ("Command failed with exit code " ++ toString code
            ++ ": " ++ String.intercalate "\n" errLines), false)
        else
          (Except.ok ⟨String.intercalate "\n" outLines,
            String.intercalate "\n" errLines, code⟩, false)
    | .timesOut =>
        (Except.error ("Command timed out after " ++ toString timeout ++ "s"),
          true)
    | .spawnFails msg =>
        (Except.error ("Command execution failed: " ++ msg), false)

/-- Substring test used to state what an error message carries. -/
def strContains (s pat : String) : Bool :=
  decide (pat.data <:+: s.data)

theorem strContains_append_right (a b : String) :
    strContains (a ++ b) b = true := by
  simp only [strContains, decide_eq_true_eq]
  exact ⟨a.data, [], by simp⟩

theorem strContains_middle (a b c : String) :
    strContains (a ++ b ++ c) b = true := by
  simp only [strContains, decide_eq_true_eq]
  exact ⟨a.data, c.data, by simp⟩

theorem strContains_empty (s : String) :
    strContains s "" = true := by
  simp only [strContains, decide_eq_true_eq]
  exact ⟨[], s.data, rfl⟩

/-- C3: whenever the subprocess exits non-zero, `execute_command` fails with
a `JobExecutionError` whose message carries the exit code and the captured
stderr, in both stream and logged output modes (in stream mode the captured
stderr is the empty string, stderr having been merged into stdout). -/
theorem executeCommand_nonzero_exit (streamOutput : Bool) (timeout : Nat)
    (code : Int) (outLines errLines : List String) (hc : code ≠ 0) :
    ∃ msg,
      (executeCommand streamOutput timeout
          (.exits code outLines errLines)).1 = Except.error msg ∧
      strContains msg (toString code) = true ∧
      strContains msg (capturedStderr streamOutput errLines) = true := by
  cases streamOutput with
  | false =>
      refine ⟨"Command failed with exit code " ++ toString code ++ ": "
        ++ String.intercalate "\n" errLines, ?_, ?_, ?_⟩
      · simp [executeCommand, hc]
      · have := strContains_middle "Command failed with exit code "
          (toString code) (": " ++ String.intercalate "\n" errLines)
        simpa [String.append_assoc] using this
      · have := strContains_append_right
          ("Command failed with exit code " ++ toString code ++ ": ")
          (String.intercalate "\n" errLines)
        simpa [capturedStderr, String.append_assoc] using this
  | true =>
      refine ⟨"Command failed with exit code " ++ toString code, ?_, ?_, ?_⟩
      · simp [executeCommand, hc]
      · exact strContains_append_right "Command failed with exit code "
          (toString code)
      · simpa [capturedStderr] using strContains_empty
          ("Command failed with exit code " ++ toString code)

/-- Witness for `executeCommand_nonzero_exit`: exit code 2 with stderr line
`boom` in logged mode. -/
theorem executeCommand_nonzero_exit_witness :
    ∃ msg,
      (executeCommand false 60 (.exits 2 [] ["boom"])).1 = Except.error msg ∧
      strContains msg (toString (2 : Int)) = true ∧
      strContains msg (capturedStderr false ["boom"]) = true :=
  executeCommand_nonzero_exit false 60 2 [] ["boom"] (by decide)

/-- C4 counterexample: in stream mode a timeout raises the `Timeout` error
but the subprocess is never killed (`process.kill()` is only reached in the
logged branch), contradicting the claim that the process is forcibly
terminated in both modes. -/
theorem executeCommand_stream_timeout_not_killed :
    (executeCommand true 60 ProcOutcome.timesOut).1
        = Except.error "Command timed out after 60s" ∧
    (executeCommand true 60 ProcOutcome.timesOut).2 = false := by
  constructor <;> rfl

/-- C4 (amended): on timeout `execute_command` fails with the `Timeout`
error in both modes; `process.kill()` is invoked in logged mode only, and
the process group is never separately terminated. -/
theorem executeCommand_timeout (streamOutput : Bool) (timeout : Nat) :
    (executeCommand streamOutput timeout ProcOutcome.timesOut).1
        = Except.error ("Command timed out after " ++ toString timeout ++ "s")
      ∧
    ((executeCommand streamOutput timeout ProcOutcome.timesOut).2 = true
        ↔ streamOutput = false) := by
  cases streamOutput <;> simp [executeCommand]

/-- C9: whenever `execute_command` returns normally, the `returncode` field
of the returned dict is 0; every non-zero exit, timeout, or spawn failure
raises instead of returning. -/
theorem executeCommand_ok_returncode (streamOutput : Bool) (timeout : Nat)
    (outcome : ProcOutcome) (result : ExecResult)
    (h : (executeCommand streamOutput timeout outcome).1
      = Except.ok result) :
    result.returncode = 0 := by
  cases streamOutput <;> cases outcome <;>
    simp only [executeCommand] at h
  case false.exits code outLines errLines =>
    by_cases hc : code = 0
    · subst hc
      simp only [ne_eq, not_true_eq_false, if_false, reduceIte] at h
      cases h
      rfl
    · simp [hc] at h
  case true.exits code outLines errLines =>
    by_cases hc : code = 0
    · subst hc
      simp only [ne_eq, not_true_eq_false, if_false, reduceIte] at h
      cases h
      rfl
    · simp [hc] at h
  all_goals cases h

/-- Witness for `executeCommand_ok_returncode`: a clean exit in logged
mode. -/
theorem executeCommand_ok_returncode_witness :
    (ExecResult.mk "" "" 0).returncode = 0 :=
  executeCommand_ok_returncode false 60 (.exits 0 [] []) ⟨"", "", 0⟩
    (by simp [executeCommand, String.intercalate])

/-! Python string primitives used by the scheduler, embedded structurally
so that concrete instances evaluate. -/

/-- The characters Python treats as whitespace in `str.split()` /
`str.strip()` (ASCII range). -/
def pyIsSpace (c : Char) : Bool :=
  c = ' ' || c = '\t' || c = '\n' || c = '\r' || c = '\x0b' || c = '\x0c'

/-- Python `str.strip()`: drop leading and trailing whitespace. -/
def pyStrip (s : String) : String :=
  String.mk (((s.data.dropWhile pyIsSpace).reverse.dropWhile pyIsSpace).reverse)

/-- Helper for `pySplitWs`: walk the characters, accumulating the current
field in reverse; whitespace ends a field, and empty fields are dropped. -/
def splitWsAux : List Char → List Char → List String
  | [], acc => if acc.isEmpty then [] else [String.mk acc.reverse]
  | c :: rest, acc =>
      if pyIsSpace c then
        if acc.isEmpty then splitWsAux rest []
        else String.mk acc.reverse :: splitWsAux rest []
      else splitWsAux rest (c :: acc)

/-- Python `str.split()` with no argument: split on runs of whitespace,
producing no empty fields. -/
def pySplitWs (s : String) : List String :=
  splitWsAux s.data []

/-- Python `int(s)` on a string: optional sign and a nonempty digit string,
surrounding whitespace stripped; anything else is a `ValueError` (`none`). -/
def pyParseDigits (cs : List Char) : Option Nat :=
  if cs ≠ [] ∧ cs.all Char.isDigit then
    some (cs.foldl (fun n c => n * 10 + (c.toNat - 48)) 0)
  else none

def pyInt (s : String) : Option Int :=
  match (pyStrip s).data with
  | [] => none
  | '+' :: rest => (pyParseDigits rest).map (fun n => (n : Int))
  | '-' :: rest => (pyParseDigits rest).map (fun n => -(n : Int))
  | cs => (pyParseDigits cs).map (fun n => (n : Int))

/-! Scheduler configuration (`src/scheduler/config.py`). -/

/-- `ScheduleConfig` dataclass. -/
structure ScheduleConfig where
  type : String
  time : Option String := none
  day : Option String := none
  hours : Option Int := none
  minutes : Option Int := none
  cron : Option String := none
deriving DecidableEq, Repr

/-- `JobConfig` dataclass. -/
structure JobConfig where
  name : String
  command : String
  enabled : Bool
  schedule : ScheduleConfig
  timeout : Int := 3600
  workingDir : Option String := none
  description : Option String := none
deriving DecidableEq, Repr

/-- Python truthiness of an optional string field (`None` and `''` are
falsy). -/
def truthyStr : Option String → Bool
  | none => false
  | some s => !(s == "")

/-- Python truthiness of an optional int field (`None` and `0` are falsy). -/
def truthyInt : Option Int → Bool
  | none => false
  | some n => decide (n ≠ 0)

/-- First validation block of `SchedulerConfig.validate`:
`not job.command or not job.command.strip()`. -/
def commandErrors (job : JobConfig) : List String :=
  if job.command = "" ∨ pyStrip job.command = "" then
    ["Job " ++ job.name ++ ": 'command' cannot be empty"]
  else []

/-- Second validation block: the `if/elif` chain over the schedule type. -/
def scheduleErrors (job : JobConfig) : List String :=
  if job.schedule.type = "daily" ∧ truthyStr job.schedule.time = false then
    ["Job " ++ job.name ++ ": 'daily' schedule requires 'time'"]
  else if job.schedule.type = "weekly"
      ∧ (truthyStr job.schedule.day = false
        ∨ truthyStr job.schedule.time = false) then
    ["Job " ++ job.name ++ ": 'weekly' schedule requires 'day' and 'time'"]
  else if job.schedule.type = "interval"
      ∧ (truthyInt job.schedule.hours || truthyInt job.schedule.minutes)
        = false then
    ["Job " ++ job.name ++ ": 'interval' schedule requires 'hours' or 'minutes'"]
  else if job.schedule.type = "cron" ∧ truthyStr job.schedule.cron = false then
    ["Job " ++ job.name ++ ": 'cron' schedule requires 'cron' expression"]
  else []

/-- Third validation block: `job.timeout <= 0`. -/
def timeoutErrors (job : JobConfig) : List String :=
  if job.timeout ≤ 0 then
    ["Job " ++ job.name ++ ": 'timeout' must be positive"]
  else []

/-- Validation errors contributed by one job; the body of the loop in
`SchedulerConfig.validate` (src/scheduler/config.py lines 264-282). -/
def validateJob (job : JobConfig) : List String :=
  commandErrors job ++ scheduleErrors job ++ timeoutErrors job

/-- `SchedulerConfig.validate`: concatenated errors over all jobs. -/
def validateConfig (jobs : List JobConfig) : List String :=
  (jobs.map validateJob).flatten

/-- `SchedulerService.load_jobs_from_config` (src/scheduler/service.py lines
254-270): raise `ValueError("Invalid configuration")` when validation
reports errors, before any job is registered; otherwise register the
enabled jobs. -/
def loadJobsFromConfig (jobs : List JobConfig) :
    Except String (List JobConfig) :=
  if validateConfig jobs ≠ [] then Except.error "Invalid configuration"
  else Except.ok (jobs.filter (fun j => j.enabled))

/-- Trigger-parameter condition as C5 words it (spec side of the
refinement): interval schedules need `hours` or `minutes` with at least one
of them positive. -/
def claimTriggerOk (s : ScheduleConfig) : Bool :=
  if s.type = "daily" then truthyStr s.time
  else if s.type = "weekly" then truthyStr s.day && truthyStr s.time
  else if s.type = "interval" then
    (match s.hours with | none => false | some n => decide (0 < n))
    || (match s.minutes with | none => false | some n => decide (0 < n))
  else if s.type = "cron" then truthyStr s.cron
  else true

/-- Job acceptance condition exactly as C5 states it. -/
def claimJobValid (job : JobConfig) : Bool :=
  decide (pyStrip job.command ≠ "") && claimTriggerOk job.schedule
    && decide (0 < job.timeout)

/-- Trigger-parameter condition the code actually enforces: interval
schedules need `hours` or `minutes` with at least one of them nonzero
(Python truthiness, so a negative interval passes validation). -/
def amendedTriggerOk (s : ScheduleConfig) : Bool :=
  if s.type = "daily" then truthyStr s.time
  else if s.type = "weekly" then truthyStr s.day && truthyStr s.time
  else if s.type = "interval" then
    truthyInt s.hours || truthyInt s.minutes
  else if s.type = "cron" then truthyStr s.cron
  else true

/-- Job acceptance condition of C5 with the interval clause amended to
Python truthiness. -/
def amendedJobValid (job : JobConfig) : Bool :=
  decide (pyStrip job.command ≠ "") && amendedTriggerOk job.schedule
    && decide (0 < job.timeout)

theorem commandErrors_eq_nil_iff (job : JobConfig) :
    commandErrors job = [] ↔ decide (pyStrip job.command ≠ "") = true := by
  by_cases hc : pyStrip job.command = ""
  · simp [commandErrors, hc]
  · have hne : ¬(job.command = "") := fun h => hc (by rw [h]; rfl)
    simp [commandErrors, hc, hne]

theorem scheduleErrors_eq_nil_iff (job : JobConfig) :
    scheduleErrors job = [] ↔ amendedTriggerOk job.schedule = true := by
  rcases job with ⟨name, command, enabled, sched, timeout, wd, desc⟩
  rcases sched with ⟨ty, time, day, hours, minutes, cron⟩
  simp only [scheduleErrors, amendedTriggerOk]
  by_cases h1 : ty = "daily"
  · subst h1
    cases ht : truthyStr time <;> simp [ht]
  · by_cases h2 : ty = "weekly"
    · subst h2
      cases hd : truthyStr day <;> cases ht : truthyStr time <;>
        simp [hd, ht]
    · by_cases h3 : ty = "interval"
      · subst h3
        cases hh : truthyInt hours <;> cases hm : truthyInt minutes <;>
          simp [hh, hm]
      · by_cases h4 : ty = "cron"
        · subst h4
          cases hc : truthyStr cron <;> simp [hc]
        · simp [h1, h2, h3, h4]

theorem timeoutErrors_eq_nil_iff (job : JobConfig) :
    timeoutErrors job = [] ↔ decide (0 < job.timeout) = true := by
  by_cases ht : job.timeout ≤ 0 <;>
    (simp [timeoutErrors, ht, decide_eq_true_eq]; try omega)

theorem validateJob_eq_nil_iff (job : JobConfig) :
    validateJob job = [] ↔ amendedJobValid job = true := by
  simp only [validateJob, amendedJobValid, List.append_eq_nil,
    Bool.and_eq_true, commandErrors_eq_nil_iff, scheduleErrors_eq_nil_iff,
    timeoutErrors_eq_nil_iff]

theorem validateConfig_eq_nil_iff (jobs : List JobConfig) :
    validateConfig jobs = [] ↔ jobs.all amendedJobValid = true := by
  induction jobs with
  | nil => simp [validateConfig]
  | cons j rest ih =>
      simp only [validateConfig, List.map_cons, List.flatten_cons,
        List.append_eq_nil, List.all_cons, Bool.and_eq_true]
      rw [validateJob_eq_nil_iff]
      exact and_congr_right (fun _ => ih)

/-- C5 counterexample: an enabled `interval` job whose `hours` is -1 (no
positive interval component).  The claim's validity condition rejects it,
but `SchedulerConfig.validate` reports no error (Python truthiness: any
nonzero int is truthy), so startup accepts and schedules it. -/
theorem validate_accepts_nonpositive_interval :
    validateConfig [⟨"neg", "run", true,
        ⟨"interval", none, none, some (-1), none, none⟩, 3600, none, none⟩]
      = [] ∧
    claimJobValid ⟨"neg", "run", true,
        ⟨"interval", none, none, some (-1), none, none⟩, 3600, none, none⟩
      = false ∧
    loadJobsFromConfig [⟨"neg", "run", true,
        ⟨"interval", none, none, some (-1), none, none⟩, 3600, none, none⟩]
      = Except.ok [⟨"neg", "run", true,
        ⟨"interval", none, none, some (-1), none, none⟩, 3600, none, none⟩] := by
  refine ⟨by decide, by decide, ?_⟩
  simp [loadJobsFromConfig, show validateConfig [⟨"neg", "run", true,
    ⟨"interval", none, none, some (-1), none, none⟩, 3600, none, none⟩]
      = [] from by decide]

/-- C5 (amended): startup validation accepts a job set if and only if every
job has a non-empty (non-whitespace) command, valid trigger parameters for
its schedule type (daily requires time; weekly requires day and time;
interval requires hours or minutes with at least one nonzero; cron requires
an expression), and a positive timeout; any validation error makes start
abort with the invalid-configuration error before any job is scheduled. -/
theorem loadJobs_validation (jobs : List JobConfig) :
    (validateConfig jobs = [] ↔ jobs.all amendedJobValid = true) ∧
    (validateConfig jobs ≠ [] →
      loadJobsFromConfig jobs = Except.error "Invalid configuration") ∧
    (validateConfig jobs = [] →
      loadJobsFromConfig jobs
        = Except.ok (jobs.filter (fun j => j.enabled))) := by
  refine ⟨validateConfig_eq_nil_iff jobs, fun hne => ?_, fun he => ?_⟩
  · simp [loadJobsFromConfig, hne]
  · simp [loadJobsFromConfig, he]

/-- Witness for `loadJobs_validation`: the default daily job validates and
is scheduled. -/
theorem loadJobs_validation_witness :
    loadJobsFromConfig [⟨"daily_transcripts", "earnings-download-transcripts",
        true, ⟨"daily", some "02:00", none, none, none, none⟩, 3600, none,
        none⟩]
      = Except.ok [⟨"daily_transcripts", "earnings-download-transcripts",
        true, ⟨"daily", some "02:00", none, none, none, none⟩, 3600, none,
        none⟩] :=
  (loadJobs_validation [⟨"daily_transcripts",
    "earnings-download-transcripts", true,
    ⟨"daily", some "02:00", none, none, none, none⟩, 3600, none,
    none⟩]).2.2 (by decide)

/-- `SchedulerConfig.add_job` (src/scheduler/config.py lines 200-207): the
duplicate check precedes the append, so a `ValueError` leaves the job list
unchanged.  The pair returns the raised error or unit, and the job list
after the call. -/
def addJob (jobs : List JobConfig) (job : JobConfig) :
    Except String Unit × List JobConfig :=
  if jobs.any (fun j => j.name == job.name) then
    (Except.error ("Job with name '" ++ job.name ++ "' already exists"),
      jobs)
  else
    (Except.ok (), jobs ++ [job])

/-- C7: `add_job` fails with the duplicate-name error and leaves the store
unchanged when a job with the same name exists; otherwise it appends the
job. -/
theorem addJob_spec (jobs : List JobConfig) (job : JobConfig) :
    ((∃ j ∈ jobs, j.name = job.name) →
      addJob jobs job
        = (Except.error ("Job with name '" ++ job.name ++ "' already exists"),
          jobs)) ∧
    ((∀ j ∈ jobs, j.name ≠ job.name) →
      addJob jobs job = (Except.ok (), jobs ++ [job])) := by
  constructor
  · rintro ⟨j, hj, hn⟩
    have hany : jobs.any (fun j => j.name == job.name) = true := by
      rw [List.any_eq_true]
      exact ⟨j, hj, by simp [hn]⟩
    simp [addJob, hany]
  · intro hall
    have hany : jobs.any (fun j => j.name == job.name) = false := by
      rw [Bool.eq_false_iff]
      intro hc
      rw [List.any_eq_true] at hc
      obtain ⟨j, hj, he⟩ := hc
      exact hall j hj (by simpa using he)
    simp [addJob, hany]

/-- Witness for `addJob_spec`: adding a job with an already-present name
fails and leaves the store unchanged. -/
theorem addJob_spec_witness :
    addJob [⟨"daily_transcripts", "cmd-a", true,
        ⟨"daily", some "02:00", none, none, none, none⟩, 3600, none, none⟩]
      ⟨"daily_transcripts", "cmd-b", false,
        ⟨"cron", none, none, none, none, some "0 2 * * *"⟩, 60, none, none⟩
      = (Except.error "Job with name 'daily_transcripts' already exists",
        [⟨"daily_transcripts", "cmd-a", true,
          ⟨"daily", some "02:00", none, none, none, none⟩, 3600, none,
          none⟩]) :=
  (addJob_spec [⟨"daily_transcripts", "cmd-a", true,
      ⟨"daily", some "02:00", none, none, none, none⟩, 3600, none, none⟩]
    ⟨"daily_transcripts", "cmd-b", false,
      ⟨"cron", none, none, none, none, some "0 2 * * *"⟩, 60, none,
      none⟩).1
    ⟨⟨"daily_transcripts", "cmd-a", true,
      ⟨"daily", some "02:00", none, none, none, none⟩, 3600, none, none⟩,
      by simp, rfl⟩

/-! Cron expression parsing (`SchedulerService._parse_cron_expression`,
src/scheduler/service.py lines 347-367). -/

/-- The APScheduler kwargs dict built from the five cron fields. -/
structure CronParams where
  minute : String
  hour : String
  day : String
  month : String
  dayOfWeek : String
deriving DecidableEq, Repr

/-- `_parse_cron_expression`: split on whitespace; raise `ValueError`
unless there are exactly five fields; map them in order to minute, hour,
day, month, day-of-week. -/
def parseCronExpression (cronExpr : String) : Except String CronParams :=
  match pySplitWs cronExpr with
  | [p0, p1, p2, p3, p4] => Except.ok ⟨p0, p1, p2, p3, p4⟩
  | _ => Except.error ("Invalid cron expression: " ++ cronExpr)

/-- C8: parsing fails if and only if the string does not split into exactly
five whitespace-separated fields; otherwise the five fields are mapped, in
order, to minute, hour, day, month, and day-of-week. -/
theorem parseCron_spec (s : String) :
    ((∃ p, parseCronExpression s = Except.ok p)
        ↔ (pySplitWs s).length = 5) ∧
    (∀ p0 p1 p2 p3 p4, pySplitWs s = [p0, p1, p2, p3, p4] →
      parseCronExpression s = Except.ok ⟨p0, p1, p2, p3, p4⟩) := by
  constructor
  · rcases h : pySplitWs s with _ | ⟨a, _ | ⟨b, _ | ⟨c, _ | ⟨d, _ |
      ⟨e, _ | ⟨f, rest⟩⟩⟩⟩⟩⟩ <;>
      simp [parseCronExpression, h]
  · intro p0 p1 p2 p3 p4 h
    simp [parseCronExpression, h]

/-- Witness for `parseCron_spec` on the spec's example expression. -/
theorem parseCron_spec_witness :
    parseCronExpression "0 2 * * *"
      = Except.ok ⟨"0", "2", "*", "*", "*"⟩ :=
  (parseCron_spec "0 2 * * *").2 "0" "2" "*" "*" "*" (by decide)

/-! Scheduler liveness probe (`is_scheduler_running`,
src/scheduler/service.py lines 65-71 and 106-127). -/

/-- `is_scheduler_running`, with the PID file contents (or `none` when the
file is absent) and process liveness (`os.kill(pid, 0)` succeeding) as
inputs.  Returns the `(is_running, pid)` pair and the PID file state after
the call. -/
def isSchedulerRunning (pidFile : Option String) (alive : Int → Bool) :
    (Bool × Option Int) × Option String :=
  match pidFile with
  | none => ((false, none), none)
  | some content =>
      match pyInt content with
      | none => ((false, none), some content)
      | some pid =>
          if alive pid then ((true, some pid), some content)
          else ((false, none), none)

/-- C2: with the PID file absent, `is_running` reports not-running; when the
file names a PID that is not alive, it deletes the stale file and reports
not-running; when the PID is alive, it reports `(true, pid)` and leaves the
file untouched. -/
theorem isSchedulerRunning_spec (alive : Int → Bool) (content : String)
    (pid : Int) (hp : pyInt content = some pid) :
    isSchedulerRunning none alive = ((false, none), none) ∧
    (alive pid = false →
      isSchedulerRunning (some content) alive = ((false, none), none)) ∧
    (alive pid = true →
      isSchedulerRunning (some content) alive
        = ((true, some pid), some content)) := by
  refine ⟨rfl, fun hdead => ?_, fun hlive => ?_⟩
  · simp [isSchedulerRunning, hp, hdead]
  · simp [isSchedulerRunning, hp, hlive]

/-- Witness for `isSchedulerRunning_spec`: PID file containing ` 314\n`
probed against a world where only PID 42 is alive (stale file deleted) and
where only PID 314 is alive (file kept). -/
theorem isSchedulerRunning_spec_witness :
    isSchedulerRunning none (fun p => decide (p = 314))
        = ((false, none), none) ∧
    ((fun p : Int => decide (p = 314)) 314 = false →
      isSchedulerRunning (some " 314\n") (fun p => decide (p = 314))
        = ((false, none), none)) ∧
    ((fun p : Int => decide (p = 314)) 314 = true →
      isSchedulerRunning (some " 314\n") (fun p => decide (p = 314))
        = ((true, some 314), some " 314\n")) :=
  isSchedulerRunning_spec (fun p => decide (p = 314)) " 314\n" 314
    (by decide)

/-! Retry coordinator (`CommandExecutor.execute_with_retry`,
src/scheduler/jobs.py lines 354-495). -/

/-- Environment inputs of one `execute_with_retry` call: the generated run
id (`uuid4` prefix), the job context, and the wall-clock readings.
`duration` is the stats dict's float `duration_seconds` and
`elapsedRounded` the history record's `round(duration, 2)`; both are opaque
here. -/
structure RetryEnv where
  runId : String
  jobName : String
  command : String
  startTime : String
  endTime : String
  duration : JVal
  elapsedRounded : JVal

/-- Python `str(x)` on the optional last error (`str(None) = "None"`). -/
def pyStrOpt : Option String → String
  | none => "None"
  | some s => s

/-- The `running` history record written before the first attempt
(src/scheduler/jobs.py lines 396-408). -/
def startRecord (env : RetryEnv) : RunRec :=
  [("job_name", JVal.str env.jobName),
   ("run_id", JVal.str env.runId),
   ("command", JVal.str env.command),
   ("start_time", JVal.str env.startTime),
   ("end_time", JVal.null),
   ("elapsed_seconds", JVal.null),
   ("status", JVal.str "running"),
   ("exit_code", JVal.null),
   ("error", JVal.null),
   ("attempts", JVal.int 0)]

/-- History update applied on success (lines 443-449). -/
def successUpdates (env : RetryEnv) (exitCode : Int) (attempts : Nat) :
    List (String × JVal) :=
  [("end_time", JVal.str env.endTime),
   ("elapsed_seconds", env.elapsedRounded),
   ("status", JVal.str "success"),
   ("exit_code", JVal.int exitCode),
   ("attempts", JVal.int attempts)]

/-- History update applied when all retries are exhausted (lines 485-491). -/
def failureUpdates (env : RetryEnv) (maxRetries : Nat)
    (lastError : Option String) : List (String × JVal) :=
  [("end_time", JVal.str env.endTime),
   ("elapsed_seconds", env.elapsedRounded),
   ("status", JVal.str "failed"),
   ("attempts", JVal.int maxRetries),
   ("error", JVal.str (pyStrOpt lastError))]

/-- The stats dict returned on success (lines 427-436); it is also stored
in `self.job_stats[job_name]`. -/
def successStats (env : RetryEnv) (exitCode : Int) (attempts : Nat) :
    RunRec :=
  [("job_name", JVal.str env.jobName),
   ("run_id", JVal.str env.runId),
   ("command", JVal.str env.command),
   ("status", JVal.str "success"),
   ("duration_seconds", env.duration),
   ("attempts", JVal.int attempts),
   ("returncode", JVal.int exitCode),
   ("timestamp", JVal.str env.endTime)]

/-- The stats dict stored in `self.job_stats[job_name]` just before the
exhaustion raise (lines 470-481). -/
def failStats (env : RetryEnv) (maxRetries : Nat)
    (lastError : Option String) : RunRec :=
  [("job_name", JVal.str env.jobName),
   ("run_id", JVal.str env.runId),
   ("command", JVal.str env.command),
   ("status", JVal.str "failed"),
   ("duration_seconds", env.duration),
   ("attempts", JVal.int maxRetries),
   ("error", JVal.str (pyStrOpt lastError)),
   ("timestamp", JVal.str env.endTime)]

/-- The `while attempt < max_retries` loop of `execute_with_retry`, with
`gas = max_retries - attempt` as the structural fuel.  Each attempt runs
`execute_command` in logged mode (`stream_output` defaults to `False`); a
raised `JobExecutionError` becomes the new `last_error` and the loop
retries (the inter-attempt sleep has no observable state here); exhaustion
updates the history record to `failed` and re-raises. -/
def retryLoop (outcomes : Nat → ProcOutcome) (env : RetryEnv)
    (timeout maxRetries : Nat) (recordHistory : Bool) :
    Nat → Nat → Option String → List RunRec →
      Except String RunRec × List RunRec
  | 0, _attempt, lastError, history =>
      let history' :=
        if recordHistory then
          updateRun history env.runId (failureUpdates env maxRetries lastError)
        else history
      (Except.error ("[" ++ env.jobName ++ ":" ++ env.runId ++ "]"
        ++ " Failed after " ++ toString maxRetries ++ " attempts: "
        ++ pyStrOpt lastError), history')
  | gas + 1, attempt, _lastError, history =>
      match (executeCommand false timeout (outcomes attempt)).1 with
      | Except.ok result =>
          let history' :=
            if recordHistory then
              updateRun history env.runId
                (successUpdates env result.returncode (attempt + 1))
            else history
          (Except.ok (successStats env result.returncode (attempt + 1)),
            history')
      | Except.error e =>
          retryLoop outcomes env timeout maxRetries recordHistory gas
            (attempt + 1) (some e) history

/-- `CommandExecutor.execute_with_retry`: write the `running` record (when
`record_history`), then run the retry loop starting at attempt 0 with no
last error.  `maxEntries` is the history store's cap (default 1000). -/
def executeWithRetry (outcomes : Nat → ProcOutcome) (env : RetryEnv)
    (maxRetries _retryDelayMinutes timeout : Nat) (recordHistory : Bool)
    (maxEntries : Nat) (history : List RunRec) :
    Except String RunRec × List RunRec :=
  let h1 :=
    if recordHistory then addRun maxEntries history (startRecord env)
    else history
  retryLoop outcomes env timeout maxRetries recordHistory maxRetries 0 none h1

/-! Lemmas about the history bookkeeping of a failed run. -/

theorem dictGet_update_failure_run_id (r : RunRec) (env : RetryEnv)
    (n : Nat) (le : Option String) :
    dictGet (dictUpdate r (failureUpdates env n le)) "run_id"
      = dictGet r "run_id" := by
  simp [failureUpdates, dictUpdate, dictGet_dictSet]

theorem dictGet_update_failure_status (r : RunRec) (env : RetryEnv)
    (n : Nat) (le : Option String) :
    dictGet (dictUpdate r (failureUpdates env n le)) "status"
      = some (JVal.str "failed") := by
  simp [failureUpdates, dictUpdate, dictGet_dictSet]

theorem dictGet_update_failure_attempts (r : RunRec) (env : RetryEnv)
    (n : Nat) (le : Option String) :
    dictGet (dictUpdate r (failureUpdates env n le)) "attempts"
      = some (JVal.int n) := by
  simp [failureUpdates, dictUpdate, dictGet_dictSet]

theorem matchesRun_update_failure (rid : String) (r : RunRec)
    (env : RetryEnv) (n : Nat) (le : Option String) :
    matchesRun rid (dictUpdate r (failureUpdates env n le))
      = matchesRun rid r := by
  simp [matchesRun, dictGet_update_failure_run_id]

theorem countP_updateRun (rid : String) (u : List (String × JVal))
    (hu : ∀ r, matchesRun rid (dictUpdate r u) = matchesRun rid r)
    (h : List RunRec) :
    (updateRun h rid u).countP (matchesRun rid)
      = h.countP (matchesRun rid) := by
  induction h with
  | nil => rfl
  | cons r rest ih =>
      cases hm : matchesRun rid r with
      | true => simp [updateRun, hm, List.countP_cons, hu]
      | false => simp [updateRun, hm, List.countP_cons, ih]

theorem mem_updateRun_count_one (rid : String) (u : List (String × JVal))
    (h : List RunRec) (hc : h.countP (matchesRun rid) = 1) :
    ∀ x ∈ updateRun h rid u, matchesRun rid x = true →
      ∃ r, r ∈ h ∧ matchesRun rid r = true ∧ x = dictUpdate r u := by
  induction h with
  | nil => simp at hc
  | cons r rest ih =>
      intro x hx hpx
      cases hm : matchesRun rid r with
      | true =>
          have h0 : ∀ a ∈ rest, matchesRun rid a = false := by
            rw [List.countP_cons] at hc
            simp [hm] at hc
            exact hc
          have hres : updateRun (r :: rest) rid u
              = dictUpdate r u :: rest := by
            simp [updateRun, hm]
          rw [hres] at hx
          rcases List.mem_cons.mp hx with hx1 | hx2
          · exact ⟨r, List.mem_cons_self r rest, hm, hx1⟩
          · rw [h0 x hx2] at hpx
            cases hpx
      | false =>
          have hres : updateRun (r :: rest) rid u
              = r :: updateRun rest rid u := by
            simp [updateRun, hm]
          rw [hres] at hx
          have hcrest : rest.countP (matchesRun rid) = 1 := by
            rw [List.countP_cons] at hc
            simpa [hm] using hc
          rcases List.mem_cons.mp hx with hx1 | hx2
          · rw [hx1] at hpx
            rw [hpx] at hm
            cases hm
          · obtain ⟨rr, hrr, hmr, hxe⟩ := ih hcrest x hx2 hpx
            exact ⟨rr, List.mem_cons_of_mem _ hrr, hmr, hxe⟩

theorem countP_addRun (rid : String) (maxEntries : Nat) (h : List RunRec)
    (r : RunRec) (h0 : h.countP (matchesRun rid) = 0)
    (hr : matchesRun rid r = true) :
    (addRun maxEntries h r).countP (matchesRun rid) = 1 := by
  have hfull : (h ++ [r]).countP (matchesRun rid) = 1 := by
    simp [List.countP_append, h0, List.countP_cons, hr]
  simp only [addRun]
  by_cases hc : maxEntries < (h ++ [r]).length
  · rw [if_pos hc]
    simp only [pyTail]
    by_cases hz : maxEntries = 0
    · rw [if_pos hz]
      exact hfull
    · rw [if_neg hz]
      have hlen : (h ++ [r]).length = h.length + 1 := by simp
      have hnle : (h ++ [r]).length - maxEntries ≤ h.length := by omega
      have hle : (List.drop ((h ++ [r]).length - maxEntries)
          (h ++ [r])).countP (matchesRun rid) ≤ 1 := by
        rw [← hfull]
        exact (List.drop_sublist _ (h ++ [r])).countP_le _
      have hmem : r ∈ List.drop ((h ++ [r]).length - maxEntries)
          (h ++ [r]) := by
        rw [List.drop_append_of_le_length hnle]
        exact List.mem_append_right _ (by simp)
      have hge : 0 < (List.drop ((h ++ [r]).length - maxEntries)
          (h ++ [r])).countP (matchesRun rid) :=
        List.countP_pos_iff.mpr ⟨r, hmem, hr⟩
      omega
  · rw [if_neg hc]
    exact hfull

theorem matchesRun_startRecord (env : RetryEnv) :
    matchesRun env.runId (startRecord env) = true := by
  simp [matchesRun, startRecord, dictGet]

/-- C1: `execute_with_retry` with `max_retries = 3` on a command whose every
execution fails creates exactly one run record for the fresh run id, whose
final status is `failed` with `attempts == 3`, and raises
`JobExecutionError` after exhaustion. -/
theorem executeWithRetry_always_failing (outcomes : Nat → ProcOutcome)
    (env : RetryEnv) (retryDelayMinutes timeout maxEntries : Nat)
    (history : List RunRec)
    (hfail : ∀ k, ∃ msg,
      (executeCommand false timeout (outcomes k)).1 = Except.error msg)
    (hfresh : history.countP (matchesRun env.runId) = 0) :
    ((executeWithRetry outcomes env 3 retryDelayMinutes timeout true
        maxEntries history).2.countP (matchesRun env.runId) = 1) ∧
    (∀ x ∈ (executeWithRetry outcomes env 3 retryDelayMinutes timeout true
        maxEntries history).2,
      matchesRun env.runId x = true →
        dictGet x "status" = some (JVal.str "failed") ∧
        dictGet x "attempts" = some (JVal.int 3)) ∧
    (∃ msg, (executeWithRetry outcomes env 3 retryDelayMinutes timeout true
        maxEntries history).1 = Except.error msg) := by
  obtain ⟨m0, hm0⟩ := hfail 0
  obtain ⟨m1, hm1⟩ := hfail 1
  obtain ⟨m2, hm2⟩ := hfail 2
  have step : ∀ (gas attempt : Nat) (le : Option String) (h : List RunRec)
      (m : String),
      (executeCommand false timeout (outcomes attempt)).1 = Except.error m →
      retryLoop outcomes env timeout 3 true (gas + 1) attempt le h
        = retryLoop outcomes env timeout 3 true gas (attempt + 1) (some m)
            h := by
    intro gas attempt le h m hm
    simp only [retryLoop]
    rw [hm]
  have hrun : executeWithRetry outcomes env 3 retryDelayMinutes timeout true
      maxEntries history
      = (Except.error ("[" ++ env.jobName ++ ":" ++ env.runId ++ "]"
          ++ " Failed after " ++ toString (3 : Nat) ++ " attempts: "
          ++ pyStrOpt (some m2)),
        updateRun (addRun maxEntries history (startRecord env)) env.runId
          (failureUpdates env 3 (some m2))) := by
    show retryLoop outcomes env timeout 3 true 3 0 none
        (addRun maxEntries history (startRecord env)) = _
    exact (step 2 0 none _ m0 hm0).trans
      ((step 1 1 (some m0) _ m1 hm1).trans
        ((step 0 2 (some m1) _ m2 hm2).trans rfl))
  have hu : ∀ r, matchesRun env.runId
      (dictUpdate r (failureUpdates env 3 (some m2)))
        = matchesRun env.runId r :=
    fun r => matchesRun_update_failure env.runId r env 3 (some m2)
  have hcount1 : (addRun maxEntries history (startRecord env)).countP
      (matchesRun env.runId) = 1 :=
    countP_addRun env.runId maxEntries history (startRecord env) hfresh
      (matchesRun_startRecord env)
  refine ⟨?_, ?_, ?_⟩
  · rw [hrun]
    exact (countP_updateRun env.runId (failureUpdates env 3 (some m2)) hu
      (addRun maxEntries history (startRecord env))).trans hcount1
  · rw [hrun]
    intro x hx hpx
    obtain ⟨r, _, _, hxe⟩ := mem_updateRun_count_one env.runId
      (failureUpdates env 3 (some m2))
      (addRun maxEntries history (startRecord env)) hcount1 x hx hpx
    subst hxe
    exact ⟨dictGet_update_failure_status r env 3 (some m2),
      dictGet_update_failure_attempts r env 3 (some m2)⟩
  · exact ⟨_, by rw [hrun]⟩

/-- Witness for `executeWithRetry_always_failing`: a command that always
exits with code 1, retried three times from an empty history. -/
theorem executeWithRetry_always_failing_witness :
    ((executeWithRetry (fun _ => .exits 1 [] ["boom"])
        ⟨"r1", "job1", "cmd", "t0", "t1", JVal.null, JVal.null⟩ 3 15 60 true
        1000 []).2.countP (matchesRun "r1") = 1) ∧
    (∀ x ∈ (executeWithRetry (fun _ => .exits 1 [] ["boom"])
        ⟨"r1", "job1", "cmd", "t0", "t1", JVal.null, JVal.null⟩ 3 15 60 true
        1000 []).2,
      matchesRun "r1" x = true →
        dictGet x "status" = some (JVal.str "failed") ∧
        dictGet x "attempts" = some (JVal.int 3)) ∧
    (∃ msg, (executeWithRetry (fun _ => .exits 1 [] ["boom"])
        ⟨"r1", "job1", "cmd", "t0", "t1", JVal.null, JVal.null⟩ 3 15 60 true
        1000 []).1 = Except.error msg) :=
  executeWithRetry_always_failing (fun _ => .exits 1 [] ["boom"])
    ⟨"r1", "job1", "cmd", "t0", "t1", JVal.null, JVal.null⟩ 15 60 1000 []
    (fun _ => ⟨"Command failed with exit code 1: boom", rfl⟩)
    rfl

end Sched
